import Mathlib

/-!
Verification model of `eval/generate_tax_docs.py`.

The script is a straight-line PDF fixture generator.  We embed it shallowly:

* a canvas is modelled by the list of drawing commands issued against it
  (`DrawOp`); reportlab state-setting calls (`setFont`, `setFillColor`,
  `setStrokeColor`, `setLineWidth`) are recorded as commands so that the
  stateful fill/font behaviour can be recovered by folding over the trace;
* Python floats are modelled as exact rationals (every literal in the script
  is an exact decimal and all arithmetic on the drawn amounts is exact);
* the text argument of `drawString` is a `Txt`: either a literal string or a
  monetary amount rendered through the f-string `"$\x7bv:,.2f\x7d"`, whose
  behaviour on the nonnegative exact-cent amounts occurring here is modelled
  by `moneyStr`;
* the filesystem touched by `main` is an association list from path to saved
  trace; writing a file prepends, and lookup takes the most recent write.
-/

/-- The reportlab named colours used by the script. -/
inductive Color where
  | black
  | gray
  | lightgrey
deriving DecidableEq

/-- Lightness of each colour (reportlab: black = 0.0 grey level, `gray` = 0.5,
`lightgrey` = hex D3D3D3, i.e. 211/255).  Used to state "lighter than". -/
def Color.lum : Color → ℚ
  | .black => 0
  | .gray => 1 / 2
  | .lightgrey => 211 / 255

/-- Character for a decimal digit. -/
def digitChar (n : Nat) : Char := Char.ofNat (48 + n)

/-- Decimal digits of `n`, least significant first; fuel-based so that it
reduces in the kernel. -/
def digitsAux : Nat → Nat → List Char
  | 0, _ => []
  | _ + 1, 0 => []
  | fuel + 1, n => digitChar (n % 10) :: digitsAux fuel (n / 10)

/-- Decimal digits of `n`, least significant first (`0` gives `['0']`). -/
def natDigitsLSF (n : Nat) : List Char :=
  if n = 0 then [ '0' ] else digitsAux (n + 1) n

/-- Insert a thousands separator after every third digit; the input and the
output are least-significant-first. -/
def commaAux : List Char → Nat → List Char
  | [], _ => []
  | c :: cs, k =>
    if k = 3 ∧ cs ≠ [] then c :: ',' :: commaAux cs 1 else c :: commaAux cs (k + 1)

/-- Floor of `v * 100 + 1/2`, computed directly on the numerator and the
denominator so that it reduces in the kernel: the amount in whole cents. -/
def centsOf (v : ℚ) : Int := Int.fdiv (200 * v.num + v.den) (2 * v.den)

/-- Model of the Python f-string `"$\x7bv:,.2f\x7d"` on the nonnegative
exact-cent amounts drawn by the generator: dollar sign, integer part with
thousands separators, and exactly two fraction digits. -/
def moneyStr (v : ℚ) : String :=
  let n : Nat := (centsOf v).toNat
  "$" ++ String.mk ((commaAux (natDigitsLSF (n / 100)) 1).reverse)
      ++ "." ++ String.mk [digitChar (n / 10 % 10), digitChar (n % 10)]

/-- Text drawn by `drawString`: a literal, or a monetary amount formatted with
the f-string `"$\x7bv:,.2f\x7d"`. -/
inductive Txt where
  | str (s : String)
  | money (v : ℚ)
deriving DecidableEq

/-- The concrete string a `Txt` puts on the page. -/
def Txt.render : Txt → String
  | .str s => s
  | .money v => moneyStr v

/-- One reportlab canvas call. -/
inductive DrawOp where
  | setFont (name : String) (size : ℚ)
  | setFillColor (c : Color)
  | setStrokeColor (c : Color)
  | setLineWidth (w : ℚ)
  | drawString (x y : ℚ) (t : Txt)
  | rect (x y w h : ℚ)
  | line (x1 y1 x2 y2 : ℚ)
deriving DecidableEq

/-- Value of `reportlab.lib.units.inch` (points). -/
def inch : ℚ := 72

/-- Width of `reportlab.lib.pagesizes.letter` (points). -/
def letterW : ℚ := 612

/-- Height of `reportlab.lib.pagesizes.letter` (points). -/
def letterH : ℚ := 792

/-- Trace of `draw_w2`: every canvas call of the Python function, in order.
The Python default arguments are inlined at the call sites in `mainSteps`. -/
def draw_w2 (employer_name : String) (wages : ℚ) (employee_name : String)
    (employee_ssn : String) (ein : String) (year : String)
    ( is_blank : Bool) (low_quality : Bool) : List DrawOp :=
  let width : ℚ := letterW
  let height : ℚ := letterH
  -- Title
  [.setFont "Helvetica-Bold" 16,
   .drawString (1 * inch) (height - 0.75 * inch)
     (.str ("Form W-2 Wage and Tax Statement " ++ year)),
  -- Form border
   .setStrokeColor .black,
   .setLineWidth 2,
   .rect (0.5 * inch) (1 * inch) (width - 1 * inch) (height - 1.5 * inch),
  -- Grid lines
   .setLineWidth 0.5]
  ++ (([height - 1.5 * inch, height - 2.5 * inch, height - 3.5 * inch,
        height - 4.5 * inch, height - 5.5 * inch, height - 6.5 * inch] : List ℚ).map
       (fun y => DrawOp.line (0.5 * inch) y (width - 0.5 * inch) y))
  -- Vertical divider
  ++ [.line (width / 2) (height - 1.5 * inch) (width / 2) (height - 6.5 * inch),
  -- Labels and values
      .setFont "Helvetica" 8,
  -- Box a - Employee's SSN
      .drawString (0.6 * inch) (height - 1.35 * inch)
        (.str "a Employee\x27s social security number")]
  ++ (if is_blank then [] else
        [DrawOp.setFont "Helvetica-Bold" 11]
        ++ (if low_quality then [DrawOp.setFillColor .lightgrey] else [])
        ++ [.drawString (0.6 * inch) (height - 1.7 * inch) (.str employee_ssn),
            .setFillColor .black])
  -- Box b - Employer ID
  ++ [.setFont "Helvetica" 8,
      .drawString (0.6 * inch) (height - 2.35 * inch)
        (.str "b Employer identification number (EIN)")]
  ++ (if is_blank then [] else
        [.setFont "Helvetica-Bold" 11,
         .drawString (0.6 * inch) (height - 2.7 * inch) (.str ein)])
  -- Box c - Employer name and address
  ++ [.setFont "Helvetica" 8,
      .drawString (0.6 * inch) (height - 3.35 * inch)
        (.str "c Employer\x27s name, address, and ZIP code")]
  ++ (if is_blank then [] else
        [DrawOp.setFont "Helvetica-Bold" 11]
        ++ (if low_quality then [DrawOp.setFillColor .gray] else [])
        ++ [.drawString (0.6 * inch) (height - 3.7 * inch) (.str employer_name),
            .setFillColor .black,
            .setFont "Helvetica" 10,
            .drawString (0.6 * inch) (height - 3.95 * inch) (.str "123 Business Ave"),
            .drawString (0.6 * inch) (height - 4.15 * inch) (.str "Anytown, ST 12345")])
  -- Box e - Employee name
  ++ [.setFont "Helvetica" 8,
      .drawString (0.6 * inch) (height - 4.85 * inch)
        (.str "e Employee\x27s first name and initial    Last name")]
  ++ (if is_blank then [] else
        [.setFont "Helvetica-Bold" 11,
         .drawString (0.6 * inch) (height - 5.2 * inch) (.str employee_name)])
  -- Box f - Employee address
  ++ [.setFont "Helvetica" 8,
      .drawString (0.6 * inch) (height - 5.85 * inch)
        (.str "f Employee\x27s address and ZIP code")]
  ++ (if is_blank then [] else
        [.setFont "Helvetica" 10,
         .drawString (0.6 * inch) (height - 6.2 * inch)
           (.str "456 Home Street, Hometown, ST 67890")])
  -- Right side - wage boxes
  -- Box 1 - Wages
  ++ [.setFont "Helvetica" 8,
      .drawString (width / 2 + 0.1 * inch) (height - 1.35 * inch)
        (.str "1 Wages, tips, other compensation")]
  ++ (if is_blank then [] else
        [DrawOp.setFont "Helvetica-Bold" 12]
        ++ (if low_quality then [DrawOp.setFillColor .lightgrey] else [])
        ++ [.drawString (width / 2 + 0.1 * inch) (height - 1.7 * inch) (.money wages),
            .setFillColor .black])
  -- Box 2 - Federal tax withheld
  ++ [.setFont "Helvetica" 8,
      .drawString (width / 2 + 0.1 * inch) (height - 2.35 * inch)
        (.str "2 Federal income tax withheld")]
  ++ (if is_blank then [] else
        [.setFont "Helvetica-Bold" 12,
         .drawString (width / 2 + 0.1 * inch) (height - 2.7 * inch)
           (.money (wages * 0.22))])
  -- Box 3 - Social security wages
  ++ [.setFont "Helvetica" 8,
      .drawString (width / 2 + 0.1 * inch) (height - 3.35 * inch)
        (.str "3 Social security wages")]
  ++ (if is_blank then [] else
        [.setFont "Helvetica-Bold" 12,
         .drawString (width / 2 + 0.1 * inch) (height - 3.7 * inch) (.money wages)])
  -- Box 4 - Social security tax withheld
  ++ [.setFont "Helvetica" 8,
      .drawString (width / 2 + 0.1 * inch) (height - 4.35 * inch)
        (.str "4 Social security tax withheld")]
  ++ (if is_blank then [] else
        [.setFont "Helvetica-Bold" 12,
         .drawString (width / 2 + 0.1 * inch) (height - 4.7 * inch)
           (.money (wages * 0.062))])
  -- Box 5 - Medicare wages
  ++ [.setFont "Helvetica" 8,
      .drawString (width / 2 + 0.1 * inch) (height - 5.35 * inch)
        (.str "5 Medicare wages and tips")]
  ++ (if is_blank then [] else
        [.setFont "Helvetica-Bold" 12,
         .drawString (width / 2 + 0.1 * inch) (height - 5.7 * inch) (.money wages)])
  -- Box 6 - Medicare tax withheld
  ++ [.setFont "Helvetica" 8,
      .drawString (width / 2 + 0.1 * inch) (height - 6.35 * inch)
        (.str "6 Medicare tax withheld")]
  ++ (if is_blank then [] else
        [.setFont "Helvetica-Bold" 12,
         .drawString (width / 2 + 0.1 * inch) (height - 6.7 * inch)
           (.money (wages * 0.0145))])
  -- Footer
  ++ [.setFont "Helvetica" 8,
      .drawString (0.6 * inch) (0.6 * inch)
        (.str "Department of the Treasury - Internal Revenue Service"),
      .drawString (width - 2.5 * inch) (0.6 * inch)
        (.str ("Form W-2 (" ++ year ++ ")"))]

/-- The `Txt` arguments of the `drawString` calls of a trace, in draw order. -/
def drawnStrings (ops : List DrawOp) : List Txt :=
  ops.filterMap fun op =>
    match op with
    | .drawString _ _ t => some t
    | _ => none

/-- The monetary amounts drawn by a trace, in draw order. -/
def moneyValues (ops : List DrawOp) : List ℚ :=
  ops.filterMap fun op =>
    match op with
    | .drawString _ _ (.money v) => some v
    | _ => none

/-- The drawn texts issued while the fill colour (initially `fill`; black is
the reportlab default) is not black, each with the colour used. -/
def lightDraws (fill : Color) : List DrawOp → List (Color × Txt)
  | [] => []
  | .setFont _ _ :: rest => lightDraws fill rest
  | .setFillColor c :: rest => lightDraws c rest
  | .setStrokeColor _ :: rest => lightDraws fill rest
  | .setLineWidth _ :: rest => lightDraws fill rest
  | .drawString _ _ t :: rest =>
    (if fill = Color.black then [] else [(fill, t)]) ++ lightDraws fill rest
  | .rect _ _ _ _ :: rest => lightDraws fill rest
  | .line _ _ _ _ :: rest => lightDraws fill rest

/-- The fill colour in force after a trace has run, starting from `fill`. -/
def finalFill (fill : Color) : List DrawOp → Color
  | [] => fill
  | .setFont _ _ :: rest => finalFill fill rest
  | .setFillColor c :: rest => finalFill c rest
  | .setStrokeColor _ :: rest => finalFill fill rest
  | .setLineWidth _ :: rest => finalFill fill rest
  | .drawString _ _ _ :: rest => finalFill fill rest
  | .rect _ _ _ _ :: rest => finalFill fill rest
  | .line _ _ _ _ :: rest => finalFill fill rest

/-- Holds (is `true`) iff every `drawString` issued under a non-black fill is
immediately followed by `setFillColor black`. -/
def resetAfterLight (fill : Color) : List DrawOp → Bool
  | [] => true
  | .setFont _ _ :: rest => resetAfterLight fill rest
  | .setFillColor c :: rest => resetAfterLight c rest
  | .setStrokeColor _ :: rest => resetAfterLight fill rest
  | .setLineWidth _ :: rest => resetAfterLight fill rest
  | .drawString _ _ _ :: rest =>
    if fill = Color.black then resetAfterLight fill rest
    else
      match rest with
      | .setFillColor .black :: rest2 => resetAfterLight .black rest2
      | _ => false
  | .rect _ _ _ _ :: rest => resetAfterLight fill rest
  | .line _ _ _ _ :: rest => resetAfterLight fill rest

/-- Each drawn text together with the font (name, size) in force when it was
drawn, starting from font `name`/`size`. -/
def fontDraws (name : String) (size : ℚ) : List DrawOp → List (String × ℚ × Txt)
  | [] => []
  | .setFont n s :: rest => fontDraws n s rest
  | .setFillColor _ :: rest => fontDraws name size rest
  | .setStrokeColor _ :: rest => fontDraws name size rest
  | .setLineWidth _ :: rest => fontDraws name size rest
  | .drawString _ _ t :: rest => (name, size, t) :: fontDraws name size rest
  | .rect _ _ _ _ :: rest => fontDraws name size rest
  | .line _ _ _ _ :: rest => fontDraws name size rest

/-- Trace of `draw_1099nec`: every canvas call of the Python function, in
order.  Default arguments are inlined at the call sites in `mainSteps`. -/
def draw_1099nec (payer_name : String) (compensation : ℚ)
    (recipient_name : String) (recipient_tin : String) (payer_tin : String)
    (year : String) : List DrawOp :=
  let width : ℚ := letterW
  let height : ℚ := letterH
  -- Title
  [.setFont "Helvetica-Bold" 16,
   .drawString (1 * inch) (height - 0.75 * inch)
     (.str ("Form 1099-NEC Nonemployee Compensation " ++ year)),
  -- Form border
   .setStrokeColor .black,
   .setLineWidth 2,
   .rect (0.5 * inch) (2 * inch) (width - 1 * inch) (height - 2.5 * inch),
  -- Payer info box
   .setLineWidth 1,
   .rect (0.6 * inch) (height - 3 * inch) (3.5 * inch) (2 * inch),
   .setFont "Helvetica" 8,
   .drawString (0.7 * inch) (height - 1.2 * inch)
     (.str "PAYER\x27S name, street address, city or town, state or province,"),
   .drawString (0.7 * inch) (height - 1.35 * inch)
     (.str "country, ZIP or foreign postal code, and telephone no."),
   .setFont "Helvetica-Bold" 11,
   .drawString (0.7 * inch) (height - 1.7 * inch) (.str payer_name),
   .setFont "Helvetica" 10,
   .drawString (0.7 * inch) (height - 1.95 * inch) (.str "789 Client Road"),
   .drawString (0.7 * inch) (height - 2.15 * inch) (.str "Business City, ST 11111"),
  -- Payer TIN
   .setFont "Helvetica" 8,
   .drawString (0.7 * inch) (height - 2.5 * inch) (.str "PAYER\x27S TIN"),
   .setFont "Helvetica-Bold" 11,
   .drawString (0.7 * inch) (height - 2.8 * inch) (.str payer_tin),
  -- Recipient info
   .setFont "Helvetica" 8,
   .drawString (0.6 * inch) (height - 3.5 * inch) (.str "RECIPIENT\x27S TIN"),
   .setFont "Helvetica-Bold" 11,
   .drawString (0.6 * inch) (height - 3.8 * inch) (.str recipient_tin),
   .setFont "Helvetica" 8,
   .drawString (0.6 * inch) (height - 4.2 * inch) (.str "RECIPIENT\x27S name"),
   .setFont "Helvetica-Bold" 11,
   .drawString (0.6 * inch) (height - 4.5 * inch) (.str recipient_name),
   .setFont "Helvetica" 10,
   .drawString (0.6 * inch) (height - 4.9 * inch) (.str "321 Freelance Lane"),
   .drawString (0.6 * inch) (height - 5.1 * inch) (.str "Worktown, ST 22222"),
  -- Box 1 - Nonemployee compensation (the main one)
   .setLineWidth 1,
   .rect (width / 2 + 0.5 * inch) (height - 2.5 * inch) (2.5 * inch) (1.2 * inch),
   .setFont "Helvetica" 8,
   .drawString (width / 2 + 0.6 * inch) (height - 1.5 * inch)
     (.str "1 Nonemployee compensation"),
   .setFont "Helvetica-Bold" 14,
   .drawString (width / 2 + 0.6 * inch) (height - 2 * inch) (.money compensation),
  -- Box 4 - Federal tax withheld
   .rect (width / 2 + 0.5 * inch) (height - 4 * inch) (2.5 * inch) (1.2 * inch),
   .setFont "Helvetica" 8,
   .drawString (width / 2 + 0.6 * inch) (height - 3 * inch)
     (.str "4 Federal income tax withheld"),
   .setFont "Helvetica-Bold" 12,
   .drawString (width / 2 + 0.6 * inch) (height - 3.5 * inch) (.str "$0.00"),
  -- Footer
   .setFont "Helvetica" 8,
   .drawString (0.6 * inch) (1.6 * inch) (.str ("Form 1099-NEC (Rev. 1-" ++ year ++ ")")),
   .drawString (0.6 * inch) (1.4 * inch)
     (.str "Department of the Treasury - Internal Revenue Service")]

/-- Trace of `draw_1099int`: every canvas call of the Python function, in
order.  Default arguments are inlined at the call sites in `mainSteps`. -/
def draw_1099int (payer_name : String) (interest : ℚ)
    (recipient_name : String) (recipient_tin : String) (payer_tin : String)
    (year : String) : List DrawOp :=
  let width : ℚ := letterW
  let height : ℚ := letterH
  -- Title
  [.setFont "Helvetica-Bold" 16,
   .drawString (1 * inch) (height - 0.75 * inch)
     (.str ("Form 1099-INT Interest Income " ++ year)),
  -- Form border
   .setStrokeColor .black,
   .setLineWidth 2,
   .rect (0.5 * inch) (2 * inch) (width - 1 * inch) (height - 2.5 * inch),
  -- Payer info
   .setLineWidth 1,
   .rect (0.6 * inch) (height - 3 * inch) (3.5 * inch) (2 * inch),
   .setFont "Helvetica" 8,
   .drawString (0.7 * inch) (height - 1.2 * inch)
     (.str "PAYER\x27S name, street address, city, state, ZIP code"),
   .setFont "Helvetica-Bold" 11,
   .drawString (0.7 * inch) (height - 1.6 * inch) (.str payer_name),
   .setFont "Helvetica" 10,
   .drawString (0.7 * inch) (height - 1.85 * inch) (.str "100 Finance Boulevard"),
   .drawString (0.7 * inch) (height - 2.05 * inch) (.str "Banking City, ST 33333"),
   .setFont "Helvetica" 8,
   .drawString (0.7 * inch) (height - 2.5 * inch) (.str "PAYER\x27S TIN"),
   .setFont "Helvetica-Bold" 11,
   .drawString (0.7 * inch) (height - 2.8 * inch) (.str payer_tin),
  -- Recipient
   .setFont "Helvetica" 8,
   .drawString (0.6 * inch) (height - 3.5 * inch) (.str "RECIPIENT\x27S TIN"),
   .setFont "Helvetica-Bold" 11,
   .drawString (0.6 * inch) (height - 3.8 * inch) (.str recipient_tin),
   .setFont "Helvetica" 8,
   .drawString (0.6 * inch) (height - 4.2 * inch) (.str "RECIPIENT\x27S name"),
   .setFont "Helvetica-Bold" 11,
   .drawString (0.6 * inch) (height - 4.5 * inch) (.str recipient_name),
  -- Box 1 - Interest income
   .setLineWidth 1,
   .rect (width / 2 + 0.5 * inch) (height - 2.5 * inch) (2.5 * inch) (1.2 * inch),
   .setFont "Helvetica" 8,
   .drawString (width / 2 + 0.6 * inch) (height - 1.5 * inch) (.str "1 Interest income"),
   .setFont "Helvetica-Bold" 14,
   .drawString (width / 2 + 0.6 * inch) (height - 2 * inch) (.money interest),
  -- Box 2 - Early withdrawal penalty
   .rect (width / 2 + 0.5 * inch) (height - 4 * inch) (2.5 * inch) (1.2 * inch),
   .setFont "Helvetica" 8,
   .drawString (width / 2 + 0.6 * inch) (height - 3 * inch)
     (.str "2 Early withdrawal penalty"),
   .setFont "Helvetica-Bold" 12,
   .drawString (width / 2 + 0.6 * inch) (height - 3.5 * inch) (.str "$0.00"),
  -- Footer
   .setFont "Helvetica" 8,
   .drawString (0.6 * inch) (1.6 * inch) (.str ("Form 1099-INT (" ++ year ++ ")")),
   .drawString (0.6 * inch) (1.4 * inch)
     (.str "Department of the Treasury - Internal Revenue Service")]

/-- Trace of `draw_1099div`: every canvas call of the Python function, in
order.  Default arguments are inlined at the call sites in `mainSteps`. -/
def draw_1099div (payer_name : String) (dividends : ℚ)
    (recipient_name : String) (recipient_tin : String) (payer_tin : String)
    (year : String) : List DrawOp :=
  let width : ℚ := letterW
  let height : ℚ := letterH
  -- Title
  [.setFont "Helvetica-Bold" 16,
   .drawString (1 * inch) (height - 0.75 * inch)
     (.str ("Form 1099-DIV Dividends and Distributions " ++ year)),
  -- Form border
   .setStrokeColor .black,
   .setLineWidth 2,
   .rect (0.5 * inch) (2 * inch) (width - 1 * inch) (height - 2.5 * inch),
  -- Payer info
   .setLineWidth 1,
   .rect (0.6 * inch) (height - 3 * inch) (3.5 * inch) (2 * inch),
   .setFont "Helvetica" 8,
   .drawString (0.7 * inch) (height - 1.2 * inch)
     (.str "PAYER\x27S name, street address, city, state, ZIP code"),
   .setFont "Helvetica-Bold" 11,
   .drawString (0.7 * inch) (height - 1.6 * inch) (.str payer_name),
   .setFont "Helvetica" 10,
   .drawString (0.7 * inch) (height - 1.85 * inch) (.str "500 Investment Plaza"),
   .drawString (0.7 * inch) (height - 2.05 * inch) (.str "Wall Street, NY 10001"),
   .setFont "Helvetica" 8,
   .drawString (0.7 * inch) (height - 2.5 * inch) (.str "PAYER\x27S TIN"),
   .setFont "Helvetica-Bold" 11,
   .drawString (0.7 * inch) (height - 2.8 * inch) (.str payer_tin),
  -- Recipient
   .setFont "Helvetica" 8,
   .drawString (0.6 * inch) (height - 3.5 * inch) (.str "RECIPIENT\x27S TIN"),
   .setFont "Helvetica-Bold" 11,
   .drawString (0.6 * inch) (height - 3.8 * inch) (.str recipient_tin),
   .setFont "Helvetica" 8,
   .drawString (0.6 * inch) (height - 4.2 * inch) (.str "RECIPIENT\x27S name"),
   .setFont "Helvetica-Bold" 11,
   .drawString (0.6 * inch) (height - 4.5 * inch) (.str recipient_name),
  -- Box 1a - Total ordinary dividends
   .setLineWidth 1,
   .rect (width / 2 + 0.5 * inch) (height - 2.5 * inch) (2.5 * inch) (1.2 * inch),
   .setFont "Helvetica" 8,
   .drawString (width / 2 + 0.6 * inch) (height - 1.5 * inch)
     (.str "1a Total ordinary dividends"),
   .setFont "Helvetica-Bold" 14,
   .drawString (width / 2 + 0.6 * inch) (height - 2 * inch) (.money dividends),
  -- Box 1b - Qualified dividends
   .rect (width / 2 + 0.5 * inch) (height - 4 * inch) (2.5 * inch) (1.2 * inch),
   .setFont "Helvetica" 8,
   .drawString (width / 2 + 0.6 * inch) (height - 3 * inch)
     (.str "1b Qualified dividends"),
   .setFont "Helvetica-Bold" 12,
   .drawString (width / 2 + 0.6 * inch) (height - 3.5 * inch)
     (.money (dividends * 0.8)),
  -- Footer
   .setFont "Helvetica" 8,
   .drawString (0.6 * inch) (1.6 * inch) (.str ("Form 1099-DIV (" ++ year ++ ")")),
   .drawString (0.6 * inch) (1.4 * inch)
     (.str "Department of the Treasury - Internal Revenue Service")]

/-- Trace of `draw_1098`: every canvas call of the Python function, in order.
Default arguments are inlined at the call sites in `mainSteps`. -/
def draw_1098 (lender_name : String) (interest : ℚ)
    (borrower_name : String) (borrower_tin : String) (lender_tin : String)
    (year : String) : List DrawOp :=
  let width : ℚ := letterW
  let height : ℚ := letterH
  -- Title
  [.setFont "Helvetica-Bold" 16,
   .drawString (1 * inch) (height - 0.75 * inch)
     (.str ("Form 1098 Mortgage Interest Statement " ++ year)),
  -- Form border
   .setStrokeColor .black,
   .setLineWidth 2,
   .rect (0.5 * inch) (2 * inch) (width - 1 * inch) (height - 2.5 * inch),
  -- Lender info
   .setLineWidth 1,
   .rect (0.6 * inch) (height - 3 * inch) (3.5 * inch) (2 * inch),
   .setFont "Helvetica" 8,
   .drawString (0.7 * inch) (height - 1.2 * inch)
     (.str "RECIPIENT\x27S/LENDER\x27S name, address, and telephone number"),
   .setFont "Helvetica-Bold" 11,
   .drawString (0.7 * inch) (height - 1.6 * inch) (.str lender_name),
   .setFont "Helvetica" 10,
   .drawString (0.7 * inch) (height - 1.85 * inch) (.str "200 Mortgage Way"),
   .drawString (0.7 * inch) (height - 2.05 * inch) (.str "Lending City, ST 44444"),
   .setFont "Helvetica" 8,
   .drawString (0.7 * inch) (height - 2.5 * inch) (.str "RECIPIENT\x27S TIN"),
   .setFont "Helvetica-Bold" 11,
   .drawString (0.7 * inch) (height - 2.8 * inch) (.str lender_tin),
  -- Borrower (Payer)
   .setFont "Helvetica" 8,
   .drawString (0.6 * inch) (height - 3.5 * inch) (.str "PAYER\x27S/BORROWER\x27S TIN"),
   .setFont "Helvetica-Bold" 11,
   .drawString (0.6 * inch) (height - 3.8 * inch) (.str borrower_tin),
   .setFont "Helvetica" 8,
   .drawString (0.6 * inch) (height - 4.2 * inch) (.str "PAYER\x27S/BORROWER\x27S name"),
   .setFont "Helvetica-Bold" 11,
   .drawString (0.6 * inch) (height - 4.5 * inch) (.str borrower_name),
   .setFont "Helvetica" 10,
   .drawString (0.6 * inch) (height - 4.9 * inch) (.str "456 Home Street"),
   .drawString (0.6 * inch) (height - 5.1 * inch) (.str "Hometown, ST 67890"),
  -- Box 1 - Mortgage interest received
   .setLineWidth 1,
   .rect (width / 2 + 0.5 * inch) (height - 2.5 * inch) (2.5 * inch) (1.2 * inch),
   .setFont "Helvetica" 8,
   .drawString (width / 2 + 0.6 * inch) (height - 1.5 * inch)
     (.str "1 Mortgage interest received from payer(s)/borrower(s)"),
   .setFont "Helvetica-Bold" 14,
   .drawString (width / 2 + 0.6 * inch) (height - 2 * inch) (.money interest),
  -- Box 2 - Outstanding mortgage principal
   .rect (width / 2 + 0.5 * inch) (height - 4 * inch) (2.5 * inch) (1.2 * inch),
   .setFont "Helvetica" 8,
   .drawString (width / 2 + 0.6 * inch) (height - 3 * inch)
     (.str "2 Outstanding mortgage principal"),
   .setFont "Helvetica-Bold" 12,
   .drawString (width / 2 + 0.6 * inch) (height - 3.5 * inch)
     (.money (interest * 25)),
  -- Footer
   .setFont "Helvetica" 8,
   .drawString (0.6 * inch) (1.6 * inch) (.str ("Form 1098 (" ++ year ++ ")")),
   .drawString (0.6 * inch) (1.4 * inch)
     (.str "Department of the Treasury - Internal Revenue Service")]

/-- One manifest dictionary appended to `documents` by `main`; absent keys are
`none`. -/
structure ManifestEntry where
  filename : String
  type : String
  employer : Option String
  payer : Option String
  lender : Option String
  wages : Option ℚ
  compensation : Option ℚ
  interest : Option ℚ
  dividends : Option ℚ
  isBlank : Option Bool
  isLowQuality : Option Bool
deriving DecidableEq

/-- One numbered block of `main`: the canvas trace drawn for the request and
the manifest entry appended for it.  As in the source, the output path is
formed from the single `filename` stored in the entry. -/
structure Step where
  trace : List DrawOp
  entry : ManifestEntry

/-- The `OUTPUT_DIR` constant of the script. -/
def OUTPUT_DIR : String := "docs"

/-- The ten blocks of `main`, in program order, with the Python default
arguments of the draw routines inlined. -/
def mainSteps : List Step :=
  [ -- 1. W-2 Acme Corp
   { trace := draw_w2 "Acme Corp" 75432.00 "John Q. Taxpayer" "XXX-XX-1234"
       "12-3456789" "2024" false false,
     entry :=
         { filename := "w2-acme-2024.pdf", type := "W-2",
           employer := some "Acme Corp", payer := none, lender := none,
           wages := some 75432.00, compensation := none, interest := none,
           dividends := none, isBlank := none, isLowQuality := none } },
   -- 2. W-2 TechStart Inc
   { trace := draw_w2 "TechStart Inc" 92150.00 "John Q. Taxpayer" "XXX-XX-1234"
       "12-3456789" "2024" false false,
     entry :=
         { filename := "w2-techstart-2024.pdf", type := "W-2",
           employer := some "TechStart Inc", payer := none, lender := none,
           wages := some 92150.00, compensation := none, interest := none,
           dividends := none, isBlank := none, isLowQuality := none } },
   -- 3. W-2 GlobalCo LLC
   { trace := draw_w2 "GlobalCo LLC" 55000.00 "John Q. Taxpayer" "XXX-XX-1234"
       "12-3456789" "2024" false false,
     entry :=
         { filename := "w2-globalco-2024.pdf", type := "W-2",
           employer := some "GlobalCo LLC", payer := none, lender := none,
           wages := some 55000.00, compensation := none, interest := none,
           dividends := none, isBlank := none, isLowQuality := none } },
   -- 4. 1099-NEC Consulting Partners
   { trace := draw_1099nec "Consulting Partners" 45000.00 "Jane D. Contractor"
       "XXX-XX-5678" "98-7654321" "2024",
     entry :=
         { filename := "1099nec-consult-2024.pdf", type := "1099-NEC",
           employer := none, payer := some "Consulting Partners", lender := none,
           wages := none, compensation := some 45000.00, interest := none,
           dividends := none, isBlank := none, isLowQuality := none } },
   -- 5. 1099-NEC Freelance Hub
   { trace := draw_1099nec "Freelance Hub" 28500.00 "Jane D. Contractor"
       "XXX-XX-5678" "98-7654321" "2024",
     entry :=
         { filename := "1099nec-freelance-2024.pdf", type := "1099-NEC",
           employer := none, payer := some "Freelance Hub", lender := none,
           wages := none, compensation := some 28500.00, interest := none,
           dividends := none, isBlank := none, isLowQuality := none } },
   -- 6. 1099-INT Big Bank
   { trace := draw_1099int "Big Bank" 1234.00 "John Q. Taxpayer" "XXX-XX-1234"
       "11-2233445" "2024",
     entry :=
         { filename := "1099int-bigbank-2024.pdf", type := "1099-INT",
           employer := none, payer := some "Big Bank", lender := none,
           wages := none, compensation := none, interest := some 1234.00,
           dividends := none, isBlank := none, isLowQuality := none } },
   -- 7. 1099-DIV Investment Corp
   { trace := draw_1099div "Investment Corp" 5678.00 "John Q. Taxpayer"
       "XXX-XX-1234" "55-6677889" "2024",
     entry :=
         { filename := "1099div-invest-2024.pdf", type := "1099-DIV",
           employer := none, payer := some "Investment Corp", lender := none,
           wages := none, compensation := none, interest := none,
           dividends := some 5678.00, isBlank := none, isLowQuality := none } },
   -- 8. 1098 Home Loans Inc
   { trace := draw_1098 "Home Loans Inc" 12345.00 "John Q. Taxpayer"
       "XXX-XX-1234" "77-8899001" "2024",
     entry :=
         { filename := "1098-mortgage-2024.pdf", type := "1098",
           employer := none, payer := none, lender := some "Home Loans Inc",
           wages := none, compensation := none, interest := some 12345.00,
           dividends := none, isBlank := none, isLowQuality := none } },
   -- 9. Blank W-2 template (edge case)
   { trace := draw_w2 "" 0 "John Q. Taxpayer" "XXX-XX-1234"
       "12-3456789" "2024" true false,
     entry :=
         { filename := "w2-blank-template.pdf", type := "W-2",
           employer := none, payer := none, lender := none,
           wages := none, compensation := none, interest := none,
           dividends := none, isBlank := some true, isLowQuality := none } },
   -- 10. Low quality W-2 (edge case)
   { trace := draw_w2 "Faded Corp" 48750.00 "John Q. Taxpayer" "XXX-XX-1234"
       "12-3456789" "2024" false true,
     entry :=
         { filename := "w2-lowquality-2024.pdf", type := "W-2",
           employer := some "Faded Corp", payer := none, lender := none,
           wages := some 48750.00, compensation := none, interest := none,
           dividends := none, isBlank := none, isLowQuality := some true } }]

/-- The filesystem seen by the generator: an association of paths to the
trace last saved there (newest first). -/
abbrev FS := List (String × List DrawOp)

/-- Saving a canvas: record the trace under its path (overwriting any older
file at the same path, since `fsLookup` takes the newest entry). -/
def fsWrite (path : String) (content : List DrawOp) (fs : FS) : FS :=
  (path, content) :: fs

/-- The current content of the file at `path`, if any. -/
def fsLookup (path : String) : FS → Option (List DrawOp)
  | [] => none
  | (q, t) :: rest => if path = q then some t else fsLookup path rest

/-- One block of `main`: create the canvas at `OUTPUT_DIR/filename`, draw,
save, and append the manifest entry. -/
def runStep (st : FS × List ManifestEntry) (s : Step) : FS × List ManifestEntry :=
  (fsWrite (OUTPUT_DIR ++ "/" ++ s.entry.filename) s.trace st.1, st.2 ++ [s.entry])

/-- Run of `main`, started on filesystem `fs`: the final filesystem and the
returned `documents` list. -/
def runMain (fs : FS) : FS × List ManifestEntry :=
  mainSteps.foldl runStep (fs, [])

/-- The `documents` list returned by `main`. -/
def mainManifest : List ManifestEntry := (runMain []).2

/-- The content of each of the ten output files after running `main` on
filesystem `fs`, in request order. -/
def outputsOf (fs : FS) : List (Option (List DrawOp)) :=
  mainSteps.map fun s => fsLookup (OUTPUT_DIR ++ "/" ++ s.entry.filename) (runMain fs).1

/-- The single monetary field a manifest entry declares, if any (each entry
declares at most one of wages/compensation/interest/dividends). -/
def primaryAmount (e : ManifestEntry) : Option ℚ :=
  match e.wages with
  | some w => some w
  | none =>
    match e.compensation with
    | some c => some c
    | none =>
      match e.interest with
      | some i => some i
      | none => e.dividends

/-- The counterparty name a manifest entry declares, if any. -/
def primaryName (e : ManifestEntry) : Option String :=
  match e.employer with
  | some n => some n
  | none =>
    match e.payer with
    | some n => some n
    | none => e.lender

/-- Modelled from the spec: the slug of a name or form type is obtained by
lowercasing and dropping every non-alphanumeric character. -/
def squash (s : String) : String :=
  String.mk ((s.data.map Char.toLower).filter Char.isAlphanum)

/-- Test `isStart p s`: the characters `p` come first in `s`. -/
def isStart : List Char → List Char → Bool
  | [], _ => true
  | _ :: _, [] => false
  | c :: cs, d :: ds => c == d && isStart cs ds

/-- Modelled from the spec: a "counterparty-slug" for `name` is a nonempty
initial segment of `squash name` (all of the script's slugs that do come from
a counterparty arise this way, e.g. `acme` from `Acme Corp`). -/
def counterpartySlug (name mid : String) : Prop :=
  mid.data ≠ [] ∧ isStart mid.data (squash name).data = true

/-- The filename pattern `<type-slug>-<mid>-<year>.pdf`. -/
def patFilename (t mid y : String) : String :=
  t ++ "-" ++ mid ++ "-" ++ y ++ ".pdf"

/-- Modelled from the spec: the filename follows the pattern
`<type-slug>-<counterparty-slug>-<year>.pdf`. -/
def followsPattern (t name y fn : String) : Prop :=
  ∃ mid : String, counterpartySlug name mid ∧ fn = patFilename t mid y

/-- The rectangles drawn by a trace (x, y, width, height), in draw order:
the outer border first, then the inner field boxes. -/
def rects (ops : List DrawOp) : List (ℚ × ℚ × ℚ × ℚ) :=
  ops.filterMap fun op =>
    match op with
    | .rect x y w h => some (x, y, w, h)
    | _ => none

example : moneyStr 45000 = "$45,000.00" := by decide
example : moneyStr 75432 = "$75,432.00" := by decide
example : moneyStr 1234 = "$1,234.00" := by decide
example : moneyStr 0 = "$0.00" := by decide


/-- The monetary values a W-2 trace draws, as a function of the arguments. -/
theorem moneyValues_draw_w2 (employer : String) (w : ℚ) (en ssn ein yr : String)
    (ib lq : Bool) :
    moneyValues (draw_w2 employer w en ssn ein yr ib lq)
      = if ib then [] else [w, w * 0.22, w, w * 0.062, w, w * 0.0145] := by
  cases ib <;> cases lq <;>
    simp only [draw_w2, moneyValues, List.filterMap_append, List.filterMap_cons,
      List.filterMap_nil, List.map_cons, List.map_nil, List.cons_append,
      List.nil_append, List.append_nil, Bool.false_eq_true, eq_self_iff_true,
      ite_true, ite_false]

/-- The monetary values a 1099-NEC trace draws. -/
theorem moneyValues_draw_1099nec (p : String) (c : ℚ) (rn rt pt yr : String) :
    moneyValues (draw_1099nec p c rn rt pt yr) = [c] := by
  simp only [draw_1099nec, moneyValues, List.filterMap_cons, List.filterMap_nil]

/-- The monetary values a 1099-INT trace draws. -/
theorem moneyValues_draw_1099int (p : String) (i : ℚ) (rn rt pt yr : String) :
    moneyValues (draw_1099int p i rn rt pt yr) = [i] := by
  simp only [draw_1099int, moneyValues, List.filterMap_cons, List.filterMap_nil]

/-- The monetary values a 1099-DIV trace draws. -/
theorem moneyValues_draw_1099div (p : String) (d : ℚ) (rn rt pt yr : String) :
    moneyValues (draw_1099div p d rn rt pt yr) = [d, d * 0.8] := by
  simp only [draw_1099div, moneyValues, List.filterMap_cons, List.filterMap_nil]

/-- The monetary values a 1098 trace draws. -/
theorem moneyValues_draw_1098 (l : String) (i : ℚ) (bn bt lt yr : String) :
    moneyValues (draw_1098 l i bn bt lt yr) = [i, i * 25] := by
  simp only [draw_1098, moneyValues, List.filterMap_cons, List.filterMap_nil]

/-- Colour `lightgrey` is not black (as a rewrite rule for trace evaluation). -/
theorem lightgrey_eq_black_iff : (Color.lightgrey = Color.black) = False :=
  eq_false (by decide)

/-- Colour `gray` is not black (as a rewrite rule for trace evaluation). -/
theorem gray_eq_black_iff : (Color.gray = Color.black) = False :=
  eq_false (by decide)

/-- A 1099-NEC trace draws everything in black. -/
theorem lightDraws_draw_1099nec (p : String) (c : ℚ) (rn rt pt yr : String) :
    lightDraws .black (draw_1099nec p c rn rt pt yr) = [] := by
  simp only [draw_1099nec, lightDraws, finalFill, resetAfterLight, List.map_cons,
      List.map_nil, List.cons_append, List.nil_append, List.append_nil,
      Bool.false_eq_true, eq_self_iff_true, ite_true, ite_false, and_true,
      and_false, true_and, false_and, not_false_iff, and_self,
      lightgrey_eq_black_iff, gray_eq_black_iff]

/-- A 1099-INT trace draws everything in black. -/
theorem lightDraws_draw_1099int (p : String) (i : ℚ) (rn rt pt yr : String) :
    lightDraws .black (draw_1099int p i rn rt pt yr) = [] := by
  simp only [draw_1099int, lightDraws, finalFill, resetAfterLight, List.map_cons,
      List.map_nil, List.cons_append, List.nil_append, List.append_nil,
      Bool.false_eq_true, eq_self_iff_true, ite_true, ite_false, and_true,
      and_false, true_and, false_and, not_false_iff, and_self,
      lightgrey_eq_black_iff, gray_eq_black_iff]

/-- A 1099-DIV trace draws everything in black. -/
theorem lightDraws_draw_1099div (p : String) (d : ℚ) (rn rt pt yr : String) :
    lightDraws .black (draw_1099div p d rn rt pt yr) = [] := by
  simp only [draw_1099div, lightDraws, finalFill, resetAfterLight, List.map_cons,
      List.map_nil, List.cons_append, List.nil_append, List.append_nil,
      Bool.false_eq_true, eq_self_iff_true, ite_true, ite_false, and_true,
      and_false, true_and, false_and, not_false_iff, and_self,
      lightgrey_eq_black_iff, gray_eq_black_iff]

/-- A 1098 trace draws everything in black. -/
theorem lightDraws_draw_1098 (l : String) (i : ℚ) (bn bt lt yr : String) :
    lightDraws .black (draw_1098 l i bn bt lt yr) = [] := by
  simp only [draw_1098, lightDraws, finalFill, resetAfterLight, List.map_cons,
      List.map_nil, List.cons_append, List.nil_append, List.append_nil,
      Bool.false_eq_true, eq_self_iff_true, ite_true, ite_false, and_true,
      and_false, true_and, false_and, not_false_iff, and_self,
      lightgrey_eq_black_iff, gray_eq_black_iff]

/-- The manifest accumulated by folding the driver steps. -/
theorem foldl_runStep_snd (steps : List Step) : ∀ (fs : FS) (acc : List ManifestEntry),
    (steps.foldl runStep (fs, acc)).2 = acc ++ steps.map Step.entry := by
  induction steps with
  | nil => intro fs acc; simp
  | cons s rest ih =>
    intro fs acc
    simp only [List.foldl_cons, List.map_cons, runStep]
    rw [ih]
    simp

/-- The filesystem produced by folding the driver steps: the written files,
newest first, in front of the starting filesystem. -/
theorem foldl_runStep_fst (steps : List Step) : ∀ (fs : FS) (acc : List ManifestEntry),
    (steps.foldl runStep (fs, acc)).1
      = (steps.map fun s => (OUTPUT_DIR ++ "/" ++ s.entry.filename, s.trace)).reverse ++ fs := by
  induction steps with
  | nil => intro fs acc; simp
  | cons s rest ih =>
    intro fs acc
    simp only [List.foldl_cons, List.map_cons, List.reverse_cons, runStep]
    rw [ih]
    simp [fsWrite]

/-- The `documents` list returned by `main` is the entries of the ten steps,
in request order. -/
theorem mainManifest_eq : mainManifest = mainSteps.map Step.entry := by
  simp [mainManifest, runMain, foldl_runStep_snd]

/-- The filesystem after `main`: the ten written files, newest first, in
front of the starting filesystem. -/
theorem runMain_fst (fs : FS) : (runMain fs).1
    = (mainSteps.map fun s => (OUTPUT_DIR ++ "/" ++ s.entry.filename, s.trace)).reverse ++ fs := by
  simp [runMain, foldl_runStep_fst]

/-- Appending strings appends the underlying character lists. -/
theorem data_append (a b : String) : (a ++ b).data = a.data ++ b.data := rfl

/-- The pattern `<t>-<mid>-<y>.pdf` determines the middle slug. -/
theorem patFilename_inj (t y m1 m2 : String)
    (h : patFilename t m1 y = patFilename t m2 y) : m1 = m2 := by
  have hd := congrArg String.data h
  simp only [patFilename, data_append, List.append_assoc] at hd
  have h1 := List.append_cancel_left hd
  have h2 := List.append_cancel_left h1
  have h3 := List.append_cancel_right h2
  cases m1
  cases m2
  exact congrArg String.mk h3

/-- The texts a W-2 trace draws under a non-black fill, as a function of the
flags: exactly the SSN, the employer name and the Box 1 wages when the form
is low-quality and not blank, and nothing otherwise. -/
theorem lightDraws_draw_w2 (employer : String) (w : ℚ) (en ssn ein yr : String)
    (ib lq : Bool) :
    lightDraws .black (draw_w2 employer w en ssn ein yr ib lq)
      = if ib = false ∧ lq = true then
          [(Color.lightgrey, Txt.str ssn), (Color.gray, Txt.str employer),
           (Color.lightgrey, Txt.money w)]
        else [] := by
  cases ib <;> cases lq <;>
    (simp only [draw_w2, List.map_cons, List.map_nil, List.cons_append,
      List.nil_append, List.append_nil, Bool.false_eq_true, Bool.true_eq_false,
      eq_self_iff_true, ite_true, ite_false];
     simp only [lightDraws, eq_self_iff_true, ite_true, ite_false,
      lightgrey_eq_black_iff, gray_eq_black_iff, List.cons_append,
      List.nil_append, and_self, and_true, true_and, and_false, false_and])

/-- The fill colour is black again when `draw_w2` returns. -/
theorem finalFill_draw_w2 (employer : String) (w : ℚ) (en ssn ein yr : String)
    (ib lq : Bool) :
    finalFill .black (draw_w2 employer w en ssn ein yr ib lq) = .black := by
  cases ib <;> cases lq <;>
    (simp only [draw_w2, List.map_cons, List.map_nil, List.cons_append,
      List.nil_append, List.append_nil, Bool.false_eq_true, Bool.true_eq_false,
      eq_self_iff_true, ite_true, ite_false];
     simp only [finalFill])

/-- In `draw_w2` every draw issued under a non-black fill is immediately
followed by a reset to black. -/
theorem resetAfterLight_draw_w2 (employer : String) (w : ℚ) (en ssn ein yr : String)
    (ib lq : Bool) :
    resetAfterLight .black (draw_w2 employer w en ssn ein yr ib lq) = true := by
  cases ib <;> cases lq <;>
    (simp only [draw_w2, List.map_cons, List.map_nil, List.cons_append,
      List.nil_append, List.append_nil, Bool.false_eq_true, Bool.true_eq_false,
      eq_self_iff_true, ite_true, ite_false];
     simp only [resetAfterLight, eq_self_iff_true, ite_true, ite_false,
      lightgrey_eq_black_iff, gray_eq_black_iff])

/-- The `documents` list returned by `main` is independent of the starting
filesystem. -/
theorem runMain_snd (fs : FS) : (runMain fs).2 = mainSteps.map Step.entry := by
  simp [runMain, foldl_runStep_snd]

/-- C1: for every W-2 with wages `w` (non-blank, any quality), every 1099-DIV
with total dividends `d`, and every 1098 with mortgage interest `i`, the
monetary values drawn on the page are exactly, in draw order: the wages `w`,
the federal withholding `0.22 * w`, the social-security wages `w`, the
social-security tax `0.062 * w`, the Medicare wages `w`, and the Medicare tax
`0.0145 * w`; the dividends `d` and the qualified dividends `0.8 * d`; the
interest `i` and the outstanding principal `25 * i`.  In particular every
derived value is the stated function of the primary amount and no further
monetary value is independently supplied. -/
theorem c1_derived_values_exact
    (employer : String) (w : ℚ) (en ssn ein yr : String) (lq : Bool)
    (payerD : String) (d : ℚ) (rnD rtD ptD yrD : String)
    (lender : String) (i : ℚ) (bn bt lt yrM : String) :
    moneyValues (draw_w2 employer w en ssn ein yr false lq)
      = [w, w * 0.22, w, w * 0.062, w, w * 0.0145]
    ∧ moneyValues (draw_1099div payerD d rnD rtD ptD yrD) = [d, d * 0.8]
    ∧ moneyValues (draw_1098 lender i bn bt lt yrM) = [i, i * 25] := by
  refine ⟨?_, moneyValues_draw_1099div payerD d rnD rtD ptD yrD,
    moneyValues_draw_1098 lender i bn bt lt yrM⟩
  rw [moneyValues_draw_w2]
  simp only [Bool.false_eq_true, ite_false]

/-- C2: running the ten fixed requests writes exactly ten files and returns a
manifest of length ten; the manifest entries are appended in request order;
the filenames are pairwise distinct; and looking up `docs/<filename>` for
each entry in the final filesystem finds exactly the trace drawn for that
request. -/
theorem c2_ten_files_manifest :
    (runMain []).1.length = 10
    ∧ mainManifest.length = 10
    ∧ (mainManifest.map fun e => e.filename).Nodup
    ∧ mainManifest = mainSteps.map Step.entry
    ∧ (mainSteps.map fun s =>
        fsLookup (OUTPUT_DIR ++ "/" ++ s.entry.filename) (runMain []).1)
      = mainSteps.map fun s => some s.trace := by
  refine ⟨by rw [runMain_fst]; rfl, by rw [mainManifest_eq]; rfl, ?_, mainManifest_eq, ?_⟩
  · have h : mainManifest.map (fun e => e.filename)
        = ["w2-acme-2024.pdf", "w2-techstart-2024.pdf", "w2-globalco-2024.pdf",
           "1099nec-consult-2024.pdf", "1099nec-freelance-2024.pdf",
           "1099int-bigbank-2024.pdf", "1099div-invest-2024.pdf",
           "1098-mortgage-2024.pdf", "w2-blank-template.pdf",
           "w2-lowquality-2024.pdf"] := by
      rw [mainManifest_eq]; rfl
    rw [h]
    decide
  · rw [runMain_fst]
    rfl

/-- C3: a blank W-2 draws only the title, the twelve field captions and the
footer — no value text at all, whatever the other arguments are, and in
particular no monetary value — and the manifest entry of the blank request
(the ninth) is the only one that sets `isBlank`, to `true`. -/
theorem c3_blank_w2_captions_only
    (employer : String) (w : ℚ) (en ssn ein yr : String) (lq : Bool) :
    drawnStrings (draw_w2 employer w en ssn ein yr true lq)
      = [.str ("Form W-2 Wage and Tax Statement " ++ yr),
         .str "a Employee\x27s social security number",
         .str "b Employer identification number (EIN)",
         .str "c Employer\x27s name, address, and ZIP code",
         .str "e Employee\x27s first name and initial    Last name",
         .str "f Employee\x27s address and ZIP code",
         .str "1 Wages, tips, other compensation",
         .str "2 Federal income tax withheld",
         .str "3 Social security wages",
         .str "4 Social security tax withheld",
         .str "5 Medicare wages and tips",
         .str "6 Medicare tax withheld",
         .str "Department of the Treasury - Internal Revenue Service",
         .str ("Form W-2 (" ++ yr ++ ")")]
    ∧ moneyValues (draw_w2 employer w en ssn ein yr true lq) = []
    ∧ mainManifest.map (fun e => e.isBlank)
      = [none, none, none, none, none, none, none, none, some true, none] := by
  refine ⟨?_, ?_, by rw [mainManifest_eq]; rfl⟩
  · simp only [draw_w2, drawnStrings, List.filterMap_append, List.filterMap_cons,
      List.filterMap_nil, List.map_cons, List.map_nil, List.cons_append,
      List.nil_append, List.append_nil, eq_self_iff_true, ite_true]
  · rw [moneyValues_draw_w2]
    simp only [eq_self_iff_true, ite_true]

/-- C4: the tenth request is the only one whose manifest entry sets
`isLowQuality` (to `true`), and it is also the only request whose trace draws
any text under a non-black fill — exactly the employee SSN, the employer name
`Faded Corp` and the Box 1 wages, in colours strictly lighter than black.
Generically, every low-quality non-blank W-2 lightens exactly those three
value texts. -/
theorem c4_low_quality_marks_and_lightens
    (employer : String) (w : ℚ) (en ssn ein yr : String) :
    mainManifest.map (fun e => e.isLowQuality)
      = [none, none, none, none, none, none, none, none, none, some true]
    ∧ mainSteps.map (fun s => lightDraws .black s.trace)
      = [[], [], [], [], [], [], [], [], [],
         [(Color.lightgrey, Txt.str "XXX-XX-1234"), (Color.gray, Txt.str "Faded Corp"),
          (Color.lightgrey, Txt.money 48750.00)]]
    ∧ lightDraws .black (draw_w2 employer w en ssn ein yr false true)
      = [(Color.lightgrey, Txt.str ssn), (Color.gray, Txt.str employer),
         (Color.lightgrey, Txt.money w)]
    ∧ Color.lum .lightgrey > Color.lum .black
    ∧ Color.lum .gray > Color.lum .black := by
  refine ⟨by rw [mainManifest_eq]; rfl, ?_, ?_, by norm_num [Color.lum], by norm_num [Color.lum]⟩
  · simp only [mainSteps, List.map_cons, List.map_nil, lightDraws_draw_w2,
      lightDraws_draw_1099nec, lightDraws_draw_1099int, lightDraws_draw_1099div,
      lightDraws_draw_1098, Bool.false_eq_true, Bool.true_eq_false,
      eq_self_iff_true, ite_true, ite_false, and_self, and_true, true_and,
      and_false, false_and]
  · rw [lightDraws_draw_w2]
    simp only [eq_self_iff_true, and_self, ite_true]

/-- C7: the fourth request draws Box 1 of the 1099-NEC for payer
`Consulting Partners` with the monetary value 45000.00, whose rendered text
is `$45,000.00`; and for every 1099-NEC, whatever the compensation, the only
monetary value drawn is the compensation itself, while Box 4 (federal income
tax withheld) is the fixed literal text `$0.00`. -/
theorem c7_1099nec_box_values (p : String) (c : ℚ) (rn rt pt yr : String) :
    (draw_1099nec "Consulting Partners" 45000.00 "Jane D. Contractor"
        "XXX-XX-5678" "98-7654321" "2024")[35]?
      = some (.drawString (letterW / 2 + 0.6 * inch) (letterH - 2 * inch)
          (.money 45000.00))
    ∧ Txt.render (.money 45000.00) = "$45,000.00"
    ∧ moneyValues (draw_1099nec p c rn rt pt yr) = [c]
    ∧ (draw_1099nec p c rn rt pt yr)[40]?
      = some (.drawString (letterW / 2 + 0.6 * inch) (letterH - 3.5 * inch)
          (.str "$0.00"))
    ∧ Txt.render (.str "$0.00") = "$0.00" := by
  refine ⟨rfl, ?_, moneyValues_draw_1099nec p c rn rt pt yr, rfl, rfl⟩
  have h : (45000.00 : ℚ) = 45000 := by norm_num
  show moneyStr 45000.00 = "$45,000.00"
  rw [h]
  decide

/-- C8: for every request, the monetary field declared in its manifest entry
(at most one of wages, compensation, interest, dividends) is exactly the
first monetary value drawn on that request page — the literal primary-amount
constant passed to the draw routine; the blank request declares none and
draws none.  In particular the W-2 for `Acme Corp` declares wages
75432.00. -/
theorem c8_manifest_matches_primary_amount :
    (mainSteps.map fun s => primaryAmount s.entry)
      = mainSteps.map (fun s => (moneyValues s.trace).head?)
    ∧ (mainSteps.map fun s => primaryAmount s.entry)
      = [some 75432.00, some 92150.00, some 55000.00, some 45000.00,
         some 28500.00, some 1234.00, some 5678.00, some 12345.00,
         none, some 48750.00]
    ∧ mainManifest.head? = some ⟨"w2-acme-2024.pdf", "W-2", some "Acme Corp",
        none, none, some 75432.00, none, none, none, none, none⟩ := by
  refine ⟨?_, by rfl, by rw [mainManifest_eq]; rfl⟩
  simp only [mainSteps, List.map_cons, List.map_nil, primaryAmount,
    moneyValues_draw_w2, moneyValues_draw_1099nec, moneyValues_draw_1099int,
    moneyValues_draw_1099div, moneyValues_draw_1098, Bool.false_eq_true,
    eq_self_iff_true, ite_true, ite_false, List.head?_cons, List.head?_nil]

/-- C9: the generator is deterministic and insensitive to its environment:
whatever filesystem state it starts from (including the state left by a
previous run), it returns the same manifest and leaves the same content in
each of the ten output files, and every drawn value is a function of the
request literals alone. -/
theorem c9_run_deterministic (fs fs2 : FS) :
    (runMain fs).2 = (runMain fs2).2 ∧ outputsOf fs = outputsOf fs2 := by
  constructor
  · rw [runMain_snd, runMain_snd]
  · simp only [outputsOf]
    rw [runMain_fst fs, runMain_fst fs2]
    rfl

/-- C10: in `draw_w2`, for every combination of the two flags, the fill
colour is black again when the routine returns; every `drawString` issued
under a non-black fill is immediately followed by `setFillColor black`; and
the texts drawn under a non-black fill are exactly the employee SSN
(lightgrey), the employer name (gray) and the Box 1 wages (lightgrey) when
`low_quality` is set and the form is not blank, and none otherwise — so all
other value text, including every derived tax amount, is drawn black. -/
theorem c10_w2_fill_discipline
    (employer : String) (w : ℚ) (en ssn ein yr : String) (ib lq : Bool) :
    finalFill .black (draw_w2 employer w en ssn ein yr ib lq) = .black
    ∧ resetAfterLight .black (draw_w2 employer w en ssn ein yr ib lq) = true
    ∧ lightDraws .black (draw_w2 employer w en ssn ein yr ib lq)
      = (if ib = false ∧ lq = true then
          [(Color.lightgrey, Txt.str ssn), (Color.gray, Txt.str employer),
           (Color.lightgrey, Txt.money w)]
         else []) :=
  ⟨finalFill_draw_w2 employer w en ssn ein yr ib lq,
   resetAfterLight_draw_w2 employer w en ssn ein yr ib lq,
   lightDraws_draw_w2 employer w en ssn ein yr ib lq⟩

/-- C5: each of the five layout routines renders, for any arguments, a page
with a title line first (Helvetica-Bold 16), an outer border rectangle and
its labeled field boxes at fixed coordinates, and the footer lines last
(Helvetica 8); for each field box the small Helvetica-8 caption is drawn
first, immediately followed — unless the W-2 is flagged blank — by the value
in a larger bold style (11/12/14), as witnessed by the exact font-annotated
draw list and rectangle list of every routine. -/
theorem c5_layout_contract
    (employer : String) (w : ℚ) (en ssn ein yr : String) (ib lq : Bool)
    (p : String) (c : ℚ) (rn rt pt : String)
    (pI : String) (iI : ℚ) (rnI rtI ptI : String)
    (pD : String) (d : ℚ) (rnD rtD ptD : String)
    (l : String) (iM : ℚ) (bn bt lt : String) :
    fontDraws "Helvetica" 12 (draw_w2 employer w en ssn ein yr false lq)
      = [("Helvetica-Bold", 16, .str ("Form W-2 Wage and Tax Statement " ++ yr)),
         ("Helvetica", 8, .str "a Employee\x27s social security number"),
         ("Helvetica-Bold", 11, .str ssn),
         ("Helvetica", 8, .str "b Employer identification number (EIN)"),
         ("Helvetica-Bold", 11, .str ein),
         ("Helvetica", 8, .str "c Employer\x27s name, address, and ZIP code"),
         ("Helvetica-Bold", 11, .str employer),
         ("Helvetica", 10, .str "123 Business Ave"),
         ("Helvetica", 10, .str "Anytown, ST 12345"),
         ("Helvetica", 8, .str "e Employee\x27s first name and initial    Last name"),
         ("Helvetica-Bold", 11, .str en),
         ("Helvetica", 8, .str "f Employee\x27s address and ZIP code"),
         ("Helvetica", 10, .str "456 Home Street, Hometown, ST 67890"),
         ("Helvetica", 8, .str "1 Wages, tips, other compensation"),
         ("Helvetica-Bold", 12, .money w),
         ("Helvetica", 8, .str "2 Federal income tax withheld"),
         ("Helvetica-Bold", 12, .money (w * 0.22)),
         ("Helvetica", 8, .str "3 Social security wages"),
         ("Helvetica-Bold", 12, .money w),
         ("Helvetica", 8, .str "4 Social security tax withheld"),
         ("Helvetica-Bold", 12, .money (w * 0.062)),
         ("Helvetica", 8, .str "5 Medicare wages and tips"),
         ("Helvetica-Bold", 12, .money w),
         ("Helvetica", 8, .str "6 Medicare tax withheld"),
         ("Helvetica-Bold", 12, .money (w * 0.0145)),
         ("Helvetica", 8, .str "Department of the Treasury - Internal Revenue Service"),
         ("Helvetica", 8, .str ("Form W-2 (" ++ yr ++ ")"))]
    ∧ fontDraws "Helvetica" 12 (draw_w2 employer w en ssn ein yr true lq)
      = [("Helvetica-Bold", 16, .str ("Form W-2 Wage and Tax Statement " ++ yr)),
         ("Helvetica", 8, .str "a Employee\x27s social security number"),
         ("Helvetica", 8, .str "b Employer identification number (EIN)"),
         ("Helvetica", 8, .str "c Employer\x27s name, address, and ZIP code"),
         ("Helvetica", 8, .str "e Employee\x27s first name and initial    Last name"),
         ("Helvetica", 8, .str "f Employee\x27s address and ZIP code"),
         ("Helvetica", 8, .str "1 Wages, tips, other compensation"),
         ("Helvetica", 8, .str "2 Federal income tax withheld"),
         ("Helvetica", 8, .str "3 Social security wages"),
         ("Helvetica", 8, .str "4 Social security tax withheld"),
         ("Helvetica", 8, .str "5 Medicare wages and tips"),
         ("Helvetica", 8, .str "6 Medicare tax withheld"),
         ("Helvetica", 8, .str "Department of the Treasury - Internal Revenue Service"),
         ("Helvetica", 8, .str ("Form W-2 (" ++ yr ++ ")"))]
    ∧ rects (draw_w2 employer w en ssn ein yr ib lq)
      = [(0.5 * inch, 1 * inch, letterW - 1 * inch, letterH - 1.5 * inch)]
    ∧ fontDraws "Helvetica" 12 (draw_1099nec p c rn rt pt yr)
      = [("Helvetica-Bold", 16, .str ("Form 1099-NEC Nonemployee Compensation " ++ yr)),
         ("Helvetica", 8, .str "PAYER\x27S name, street address, city or town, state or province,"),
         ("Helvetica", 8, .str "country, ZIP or foreign postal code, and telephone no."),
         ("Helvetica-Bold", 11, .str p),
         ("Helvetica", 10, .str "789 Client Road"),
         ("Helvetica", 10, .str "Business City, ST 11111"),
         ("Helvetica", 8, .str "PAYER\x27S TIN"),
         ("Helvetica-Bold", 11, .str pt),
         ("Helvetica", 8, .str "RECIPIENT\x27S TIN"),
         ("Helvetica-Bold", 11, .str rt),
         ("Helvetica", 8, .str "RECIPIENT\x27S name"),
         ("Helvetica-Bold", 11, .str rn),
         ("Helvetica", 10, .str "321 Freelance Lane"),
         ("Helvetica", 10, .str "Worktown, ST 22222"),
         ("Helvetica", 8, .str "1 Nonemployee compensation"),
         ("Helvetica-Bold", 14, .money c),
         ("Helvetica", 8, .str "4 Federal income tax withheld"),
         ("Helvetica-Bold", 12, .str "$0.00"),
         ("Helvetica", 8, .str ("Form 1099-NEC (Rev. 1-" ++ yr ++ ")")),
         ("Helvetica", 8, .str "Department of the Treasury - Internal Revenue Service")]
    ∧ rects (draw_1099nec p c rn rt pt yr)
      = [(0.5 * inch, 2 * inch, letterW - 1 * inch, letterH - 2.5 * inch),
         (0.6 * inch, letterH - 3 * inch, 3.5 * inch, 2 * inch),
         (letterW / 2 + 0.5 * inch, letterH - 2.5 * inch, 2.5 * inch, 1.2 * inch),
         (letterW / 2 + 0.5 * inch, letterH - 4 * inch, 2.5 * inch, 1.2 * inch)]
    ∧ fontDraws "Helvetica" 12 (draw_1099int pI iI rnI rtI ptI yr)
      = [("Helvetica-Bold", 16, .str ("Form 1099-INT Interest Income " ++ yr)),
         ("Helvetica", 8, .str "PAYER\x27S name, street address, city, state, ZIP code"),
         ("Helvetica-Bold", 11, .str pI),
         ("Helvetica", 10, .str "100 Finance Boulevard"),
         ("Helvetica", 10, .str "Banking City, ST 33333"),
         ("Helvetica", 8, .str "PAYER\x27S TIN"),
         ("Helvetica-Bold", 11, .str ptI),
         ("Helvetica", 8, .str "RECIPIENT\x27S TIN"),
         ("Helvetica-Bold", 11, .str rtI),
         ("Helvetica", 8, .str "RECIPIENT\x27S name"),
         ("Helvetica-Bold", 11, .str rnI),
         ("Helvetica", 8, .str "1 Interest income"),
         ("Helvetica-Bold", 14, .money iI),
         ("Helvetica", 8, .str "2 Early withdrawal penalty"),
         ("Helvetica-Bold", 12, .str "$0.00"),
         ("Helvetica", 8, .str ("Form 1099-INT (" ++ yr ++ ")")),
         ("Helvetica", 8, .str "Department of the Treasury - Internal Revenue Service")]
    ∧ rects (draw_1099int pI iI rnI rtI ptI yr)
      = [(0.5 * inch, 2 * inch, letterW - 1 * inch, letterH - 2.5 * inch),
         (0.6 * inch, letterH - 3 * inch, 3.5 * inch, 2 * inch),
         (letterW / 2 + 0.5 * inch, letterH - 2.5 * inch, 2.5 * inch, 1.2 * inch),
         (letterW / 2 + 0.5 * inch, letterH - 4 * inch, 2.5 * inch, 1.2 * inch)]
    ∧ fontDraws "Helvetica" 12 (draw_1099div pD d rnD rtD ptD yr)
      = [("Helvetica-Bold", 16, .str ("Form 1099-DIV Dividends and Distributions " ++ yr)),
         ("Helvetica", 8, .str "PAYER\x27S name, street address, city, state, ZIP code"),
         ("Helvetica-Bold", 11, .str pD),
         ("Helvetica", 10, .str "500 Investment Plaza"),
         ("Helvetica", 10, .str "Wall Street, NY 10001"),
         ("Helvetica", 8, .str "PAYER\x27S TIN"),
         ("Helvetica-Bold", 11, .str ptD),
         ("Helvetica", 8, .str "RECIPIENT\x27S TIN"),
         ("Helvetica-Bold", 11, .str rtD),
         ("Helvetica", 8, .str "RECIPIENT\x27S name"),
         ("Helvetica-Bold", 11, .str rnD),
         ("Helvetica", 8, .str "1a Total ordinary dividends"),
         ("Helvetica-Bold", 14, .money d),
         ("Helvetica", 8, .str "1b Qualified dividends"),
         ("Helvetica-Bold", 12, .money (d * 0.8)),
         ("Helvetica", 8, .str ("Form 1099-DIV (" ++ yr ++ ")")),
         ("Helvetica", 8, .str "Department of the Treasury - Internal Revenue Service")]
    ∧ rects (draw_1099div pD d rnD rtD ptD yr)
      = [(0.5 * inch, 2 * inch, letterW - 1 * inch, letterH - 2.5 * inch),
         (0.6 * inch, letterH - 3 * inch, 3.5 * inch, 2 * inch),
         (letterW / 2 + 0.5 * inch, letterH - 2.5 * inch, 2.5 * inch, 1.2 * inch),
         (letterW / 2 + 0.5 * inch, letterH - 4 * inch, 2.5 * inch, 1.2 * inch)]
    ∧ fontDraws "Helvetica" 12 (draw_1098 l iM bn bt lt yr)
      = [("Helvetica-Bold", 16, .str ("Form 1098 Mortgage Interest Statement " ++ yr)),
         ("Helvetica", 8, .str "RECIPIENT\x27S/LENDER\x27S name, address, and telephone number"),
         ("Helvetica-Bold", 11, .str l),
         ("Helvetica", 10, .str "200 Mortgage Way"),
         ("Helvetica", 10, .str "Lending City, ST 44444"),
         ("Helvetica", 8, .str "RECIPIENT\x27S TIN"),
         ("Helvetica-Bold", 11, .str lt),
         ("Helvetica", 8, .str "PAYER\x27S/BORROWER\x27S TIN"),
         ("Helvetica-Bold", 11, .str bt),
         ("Helvetica", 8, .str "PAYER\x27S/BORROWER\x27S name"),
         ("Helvetica-Bold", 11, .str bn),
         ("Helvetica", 10, .str "456 Home Street"),
         ("Helvetica", 10, .str "Hometown, ST 67890"),
         ("Helvetica", 8, .str "1 Mortgage interest received from payer(s)/borrower(s)"),
         ("Helvetica-Bold", 14, .money iM),
         ("Helvetica", 8, .str "2 Outstanding mortgage principal"),
         ("Helvetica-Bold", 12, .money (iM * 25)),
         ("Helvetica", 8, .str ("Form 1098 (" ++ yr ++ ")")),
         ("Helvetica", 8, .str "Department of the Treasury - Internal Revenue Service")]
    ∧ rects (draw_1098 l iM bn bt lt yr)
      = [(0.5 * inch, 2 * inch, letterW - 1 * inch, letterH - 2.5 * inch),
         (0.6 * inch, letterH - 3 * inch, 3.5 * inch, 2 * inch),
         (letterW / 2 + 0.5 * inch, letterH - 2.5 * inch, 2.5 * inch, 1.2 * inch),
         (letterW / 2 + 0.5 * inch, letterH - 4 * inch, 2.5 * inch, 1.2 * inch)] := by
  refine ⟨?_, ?_, ?_, ?_, ?_, ?_, ?_, ?_, ?_, ?_, ?_⟩
  · cases lq <;>
      (simp only [draw_w2, List.map_cons, List.map_nil, List.cons_append,
        List.nil_append, List.append_nil, Bool.false_eq_true, Bool.true_eq_false,
        eq_self_iff_true, ite_true, ite_false];
       simp only [fontDraws])
  · cases lq <;>
      (simp only [draw_w2, List.map_cons, List.map_nil, List.cons_append,
        List.nil_append, List.append_nil, Bool.false_eq_true, Bool.true_eq_false,
        eq_self_iff_true, ite_true, ite_false];
       simp only [fontDraws])
  · cases ib <;> cases lq <;>
      simp only [draw_w2, rects, List.filterMap_append, List.filterMap_cons,
        List.filterMap_nil, List.map_cons, List.map_nil, List.cons_append,
        List.nil_append, List.append_nil, Bool.false_eq_true, Bool.true_eq_false,
        eq_self_iff_true, ite_true, ite_false]
  · simp only [draw_1099nec, fontDraws]
  · simp only [draw_1099nec, rects, List.filterMap_cons, List.filterMap_nil]
  · simp only [draw_1099int, fontDraws]
  · simp only [draw_1099int, rects, List.filterMap_cons, List.filterMap_nil]
  · simp only [draw_1099div, fontDraws]
  · simp only [draw_1099div, rects, List.filterMap_cons, List.filterMap_nil]
  · simp only [draw_1098, fontDraws]
  · simp only [draw_1098, rects, List.filterMap_cons, List.filterMap_nil]

/-- C6 counterexample: the 1098 request, whose manifest entry names the
counterparty `Home Loans Inc`, is written to `1098-mortgage-2024.pdf` — and
that filename does not follow `<type-slug>-<counterparty-slug>-<year>.pdf`,
because the only possible middle slug, `mortgage`, is not a slug of the
counterparty name `Home Loans Inc`. -/
theorem c6_filename_pattern_counterexample :
    (mainManifest.map fun e => (primaryName e, e.filename))[7]?
      = some (some "Home Loans Inc", "1098-mortgage-2024.pdf")
    ∧ ¬ followsPattern (squash "1098") "Home Loans Inc" "2024"
        "1098-mortgage-2024.pdf" := by
  refine ⟨by rw [mainManifest_eq]; rfl, ?_⟩
  intro h
  obtain ⟨mid, ⟨hne, hpre⟩, heq⟩ := h
  have hfn : ("1098-mortgage-2024.pdf" : String)
      = patFilename (squash "1098") "mortgage" "2024" := by decide
  have hm : ("mortgage" : String) = mid :=
    patFilename_inj (squash "1098") "2024" "mortgage" mid (hfn.symm.trans heq)
  rw [← hm] at hpre
  exact absurd hpre (by decide)

/-- C6 amended: every output filename except the 1098 follows the pattern
`<type-slug>-<counterparty-slug>-<year>.pdf` (type slug and counterparty slug
obtained by lowercasing and squashing), the two edge cases follow
`<type-slug>-blank-template.pdf` and `<type-slug>-lowquality-<year>.pdf`, and
the 1098 alone uses the form-derived middle slug `mortgage` in place of a
slug of its counterparty `Home Loans Inc`. -/
theorem c6_filename_pattern_amended :
    mainManifest.map (fun e => (e.type, primaryName e, e.filename))
      = [("W-2", some "Acme Corp", "w2-acme-2024.pdf"),
         ("W-2", some "TechStart Inc", "w2-techstart-2024.pdf"),
         ("W-2", some "GlobalCo LLC", "w2-globalco-2024.pdf"),
         ("1099-NEC", some "Consulting Partners", "1099nec-consult-2024.pdf"),
         ("1099-NEC", some "Freelance Hub", "1099nec-freelance-2024.pdf"),
         ("1099-INT", some "Big Bank", "1099int-bigbank-2024.pdf"),
         ("1099-DIV", some "Investment Corp", "1099div-invest-2024.pdf"),
         ("1098", some "Home Loans Inc", "1098-mortgage-2024.pdf"),
         ("W-2", none, "w2-blank-template.pdf"),
         ("W-2", some "Faded Corp", "w2-lowquality-2024.pdf")]
    ∧ followsPattern (squash "W-2") "Acme Corp" "2024" "w2-acme-2024.pdf"
    ∧ followsPattern (squash "W-2") "TechStart Inc" "2024" "w2-techstart-2024.pdf"
    ∧ followsPattern (squash "W-2") "GlobalCo LLC" "2024" "w2-globalco-2024.pdf"
    ∧ followsPattern (squash "1099-NEC") "Consulting Partners" "2024"
        "1099nec-consult-2024.pdf"
    ∧ followsPattern (squash "1099-NEC") "Freelance Hub" "2024"
        "1099nec-freelance-2024.pdf"
    ∧ followsPattern (squash "1099-INT") "Big Bank" "2024" "1099int-bigbank-2024.pdf"
    ∧ followsPattern (squash "1099-DIV") "Investment Corp" "2024"
        "1099div-invest-2024.pdf"
    ∧ "1098-mortgage-2024.pdf" = patFilename (squash "1098") "mortgage" "2024"
    ∧ "w2-blank-template.pdf" = squash "W-2" ++ "-blank-template.pdf"
    ∧ "w2-lowquality-2024.pdf" = squash "W-2" ++ "-lowquality-" ++ "2024" ++ ".pdf" := by
  refine ⟨by rw [mainManifest_eq]; rfl,
    ⟨"acme", ⟨by decide, by decide⟩, by decide⟩,
    ⟨"techstart", ⟨by decide, by decide⟩, by decide⟩,
    ⟨"globalco", ⟨by decide, by decide⟩, by decide⟩,
    ⟨"consult", ⟨by decide, by decide⟩, by decide⟩,
    ⟨"freelance", ⟨by decide, by decide⟩, by decide⟩,
    ⟨"bigbank", ⟨by decide, by decide⟩, by decide⟩,
    ⟨"invest", ⟨by decide, by decide⟩, by decide⟩,
    by decide, by decide, by decide⟩
